import Mathlib

/-!
# Verification of the catgirl-CLI download pipeline

A shallow embedding of the `catgirl_downloader` Python package
(`models.py`, `downloader.py`, `fs.py`, `providers/registry.py` and the
provider modules), together with theorems settling the frozen claims about
its specification.

Conventions of the embedding:
* Python strings are Lean `String`s; most character-level operations are
  modelled over `String.data` (`List Char`) so that everything reduces in
  the kernel.
* Machine integers do not occur; Python's unbounded `int` is `ℕ`/`ℤ`.
  The 32-bit arithmetic inside SHA-1 is `ℕ` with explicit `% 2^32`.
* The HTTP boundary is an environment parameter: a provider fetch takes
  the decoded upstream payload (or `none` for a wire error) as an
  argument; the per-candidate download loop takes a function from the
  attempt index to the attempt's outcome.
* Fallible Python code (functions that can raise) returns `Except String`.
* Concurrency is abstracted: the worker pool of `download_candidates`
  applies the per-candidate loop to every candidate; completion order is
  represented by input order (no claim depends on completion order).
-/

deriving instance DecidableEq for Except

namespace Catgirl

/-! ## models.py -/

/-- Embeds `DownloadStatus = Literal["ok", "failed", "skipped_duplicate"]`. -/
inductive DownloadStatus where
  | ok
  | failed
  | skippedDuplicate
deriving DecidableEq, Repr

/-- Embeds the `RemoteImage` dataclass. `rating` is kept as a plain string,
as in Python where the `Rating` literal type is unenforced at runtime. -/
structure RemoteImage where
  provider : String
  category : String
  url : String
  rating : String
  tags : List String
deriving DecidableEq, Repr

/-- Embeds the `DownloadResult` dataclass. -/
structure DownloadResult where
  url : String
  path : Option String
  provider : String
  status : DownloadStatus
  error : Option String
deriving DecidableEq, Repr

/-- Embeds the `DownloadSummary` dataclass. -/
structure DownloadSummary where
  requested : ℕ
  downloaded : ℕ
  failed : ℕ
  duplicates : ℕ
  outputDir : String
deriving DecidableEq, Repr

/-- Python whitespace characters stripped by `str.strip()` (ASCII subset;
the inputs of this program are ASCII). -/
def isPySpace (c : Char) : Bool :=
  c = ' ' ∨ c = '\t' ∨ c = '\n' ∨ c = '\r' ∨ c = '\x0b' ∨ c = '\x0c'

/-- Embeds `str.strip()` (on ASCII data). -/
def pyStrip (s : String) : String :=
  ⟨((s.data.dropWhile isPySpace).reverse.dropWhile isPySpace).reverse⟩

/-- ASCII lowering of one character; embeds `str.lower()` on the ASCII
data this program manipulates. -/
def lowerChar (c : Char) : Char :=
  if 'A' ≤ c ∧ c ≤ 'Z' then Char.ofNat (c.toNat + 32) else c

/-- Embeds `str.lower()` (on ASCII data). -/
def pyLower (s : String) : String := ⟨s.data.map lowerChar⟩

/-- Embeds `KNOWN_RATINGS` from `models.py`. -/
def KNOWN_RATINGS : List String :=
  ["safe", "suggestive", "borderline", "explicit", "unknown"]

/-- Embeds `normalize_rating` from `models.py`. -/
def normalize_rating (value : Option String) : String :=
  match value with
  | none => "unknown"
  | some v =>
    let lowered := pyLower (pyStrip v)
    if lowered ∈ KNOWN_RATINGS then lowered else "unknown"

/-! ## downloader.py: dedupe_candidates -/

/-- The synthetic result `dedupe_candidates` appends for a repeated URL
(`downloader.py` lines 31-39). -/
def duplicateResult (item : RemoteImage) : DownloadResult :=
  { url := item.url
    path := none
    provider := item.provider
    status := .skippedDuplicate
    error := some "Duplicate URL in candidate list" }

/-- The loop of `dedupe_candidates`, with the `seen_urls` set represented
as the list of URLs added so far (membership is exact string equality,
as for a Python `set[str]`). -/
def dedupeAux (seen : List String) :
    List RemoteImage → List RemoteImage × List DownloadResult
  | [] => ([], [])
  | item :: rest =>
    if item.url ∈ seen then
      let (u, d) := dedupeAux seen rest
      (u, duplicateResult item :: d)
    else
      let (u, d) := dedupeAux (item.url :: seen) rest
      (item :: u, d)

/-- Embeds `dedupe_candidates` from `downloader.py`. -/
def dedupe_candidates (candidates : List RemoteImage) :
    List RemoteImage × List DownloadResult :=
  dedupeAux [] candidates

/-! Specification-side formulation of the dedup contract, written from the
spec's words (§4.3): a single left-to-right pass in which the first
occurrence of a URL is kept and each later occurrence yields a
`skipped_duplicate` record, in encounter order. Used only to state the
refinement claim C3. -/

/-- Spec formulation: the elements kept are exactly those whose URL does
not occur among the URLs of the strictly earlier elements. -/
def specFirstOccurrences (l : List RemoteImage) : List RemoteImage :=
  ((l.enum).filter
    (fun p => decide (p.2.url ∉ ((l.take p.1).map RemoteImage.url)))).map Prod.snd

/-- Spec formulation: each element whose URL occurred earlier produces the
`skipped_duplicate` record, in encounter order. -/
def specDuplicateResults (l : List RemoteImage) : List DownloadResult :=
  ((l.enum).filter
    (fun p => decide (p.2.url ∈ ((l.take p.1).map RemoteImage.url)))).map
    (fun p => duplicateResult p.2)

/-! ## providers/registry.py -/

/-- Static data of one provider class: its `name`,
`supports_rating_filter`, `supported_themes` and `supported_ratings`
class attributes. -/
structure ProviderInfo where
  name : String
  supportsRatingFilter : Bool
  supportedThemes : List String
  supportedRatings : List String
deriving DecidableEq, Repr

/-- Embeds the class attributes of `WaifuPicsProvider`. -/
def waifuPicsInfo : ProviderInfo :=
  ⟨"waifu_pics", true, ["catgirl", "neko", "femboy"], ["any", "safe", "explicit"]⟩

/-- Embeds the class attributes of `NekosApiProvider`. -/
def nekosApiInfo : ProviderInfo :=
  ⟨"nekosapi", true, ["catgirl"], ["any", "safe", "suggestive", "borderline", "explicit"]⟩

/-- Embeds the class attributes of `NekosBestProvider`. -/
def nekosBestInfo : ProviderInfo :=
  ⟨"nekos_best", false, ["catgirl", "neko", "kitsune"], ["any", "safe"]⟩

/-- Embeds the class attributes of `NekosLifeProvider`. -/
def nekosLifeInfo : ProviderInfo :=
  ⟨"nekos_life", false, ["catgirl", "neko", "kitsune"], ["any", "safe"]⟩

/-- Embeds the class attributes of `NekobotProvider`. -/
def nekobotInfo : ProviderInfo :=
  ⟨"nekobot", false, ["catgirl", "neko"], ["any", "safe"]⟩

/-- Embeds the class attributes of `E621Provider`. -/
def e621Info : ProviderInfo :=
  ⟨"e621", true, ["femboy"], ["any", "safe", "suggestive", "borderline", "explicit"]⟩

/-- Embeds the class attributes of `Rule34Provider`. -/
def rule34Info : ProviderInfo :=
  ⟨"rule34", true, ["femboy"], ["any", "safe", "suggestive", "borderline", "explicit"]⟩

/-- Embeds the `_PROVIDERS` dict of `registry.py`, in insertion order. -/
def PROVIDERS : List (String × ProviderInfo) :=
  [("waifu_pics", waifuPicsInfo),
   ("nekosapi", nekosApiInfo),
   ("nekos_best", nekosBestInfo),
   ("nekos_life", nekosLifeInfo),
   ("nekobot", nekobotInfo),
   ("e621", e621Info),
   ("rule34", rule34Info)]

/-- Embeds `get_provider`; `none` corresponds to the `KeyError` raised for
an unknown name. -/
def get_provider (name : String) : Option ProviderInfo :=
  (PROVIDERS.find? (fun p => p.1 = name)).map Prod.snd

/-- The per-theme priority lists of `get_auto_provider_order`
(`registry.py` lines 79-86); the final branch is the `else` default, which
also serves the theme `kitsune`. -/
def autoBaseOrder (theme : String) : List String :=
  if theme = "catgirl" then
    ["nekosapi", "waifu_pics", "nekos_life", "nekobot", "nekos_best"]
  else if theme = "neko" then
    ["waifu_pics", "nekos_best", "nekos_life", "nekobot", "nekosapi"]
  else if theme = "femboy" then
    ["waifu_pics", "e621", "rule34"]
  else
    ["nekos_best", "nekos_life", "nekosapi", "waifu_pics", "nekobot"]

/-- The filtering loop of `get_auto_provider_order` (lines 88-95): skip a
provider unless the theme is among its supported themes and the rating
among its supported ratings. A failed registry lookup cannot occur for
names drawn from `autoBaseOrder` and contributes nothing, like the loop
before its (unreachable) `KeyError`. -/
def autoOrderFilter (rating theme : String) : List String → List String
  | [] => []
  | n :: rest =>
    match get_provider n with
    | none => autoOrderFilter rating theme rest
    | some p =>
      if theme ∈ p.supportedThemes then
        if rating ∈ p.supportedRatings then n :: autoOrderFilter rating theme rest
        else autoOrderFilter rating theme rest
      else autoOrderFilter rating theme rest

/-- Embeds `get_auto_provider_order` from `registry.py`. -/
def get_auto_provider_order (rating theme : String) : List String :=
  autoOrderFilter rating theme (autoBaseOrder theme)

/-- Declared support of a named provider for a (theme, rating) pair, read
off the registry tables; used to state claim C7. -/
def providerSupports (name theme rating : String) : Bool :=
  match get_provider name with
  | none => false
  | some p => theme ∈ p.supportedThemes ∧ rating ∈ p.supportedRatings

/-! ## fs.py: SHA-1 (`hashlib.sha1`)

`build_filename` calls `hashlib.sha1(url.encode("utf-8")).hexdigest()[:10]`.
`hashlib` is the Python standard library, so the hash itself is embedded
from the SHA-1 standard (FIPS 180): UTF-8 encoding, padding, the 80-round
compression function, big-endian digest, all over `ℕ` with explicit
truncation to 32 bits. -/

/-- Truncation to a 32-bit word. -/
def w32 (n : ℕ) : ℕ := n % 4294967296

/-- Left rotation of a 32-bit word. -/
def rotl (n s : ℕ) : ℕ := w32 ((n <<< s) ||| (n >>> (32 - s)))

/-- UTF-8 encoding of one code point (embeds `str.encode("utf-8")`). -/
def utf8EncodeChar (c : Char) : List ℕ :=
  let n := c.toNat
  if n < 128 then [n]
  else if n < 2048 then [192 ||| (n >>> 6), 128 ||| (n &&& 63)]
  else if n < 65536 then
    [224 ||| (n >>> 12), 128 ||| ((n >>> 6) &&& 63), 128 ||| (n &&& 63)]
  else
    [240 ||| (n >>> 18), 128 ||| ((n >>> 12) &&& 63),
     128 ||| ((n >>> 6) &&& 63), 128 ||| (n &&& 63)]

/-- UTF-8 encoding of a string as a byte list. -/
def utf8Encode (s : String) : List ℕ :=
  s.data.foldr (fun c acc => utf8EncodeChar c ++ acc) []

/-- Big-endian 8-byte encoding of the bit length, for SHA-1 padding. -/
def beBytes8 (n : ℕ) : List ℕ :=
  [(n >>> 56) % 256, (n >>> 48) % 256, (n >>> 40) % 256, (n >>> 32) % 256,
   (n >>> 24) % 256, (n >>> 16) % 256, (n >>> 8) % 256, n % 256]

/-- SHA-1 padding: `0x80`, zeros to 56 mod 64, 8-byte bit length. -/
def sha1Pad (msg : List ℕ) : List ℕ :=
  let len := msg.length
  let padZeros := (119 - len % 64) % 64
  msg ++ [128] ++ List.replicate padZeros 0 ++ beBytes8 (8 * len)

/-- Split into 64-byte blocks (fuel-based so that it reduces in the
kernel; the fuel `l.length` always suffices). -/
def chunks64Fuel : ℕ → List ℕ → List (List ℕ)
  | 0, _ => []
  | _, [] => []
  | fuel + 1, l => l.take 64 :: chunks64Fuel fuel (l.drop 64)

/-- Split a byte list into 64-byte blocks. -/
def chunks64 (l : List ℕ) : List (List ℕ) := chunks64Fuel l.length l

/-- Big-endian 32-bit words of a block. -/
def toWords : List ℕ → List ℕ
  | a :: b :: c :: d :: rest => (((a * 256 + b) * 256 + c) * 256 + d) :: toWords rest
  | _ => []

/-- Message-schedule extension: append `rotl (w[k-3] ^ w[k-8] ^ w[k-14] ^ w[k-16]) 1`
the given number of times. -/
def sha1Extend (w : List ℕ) : ℕ → List ℕ
  | 0 => w
  | n + 1 =>
    let k := w.length
    let x := (w.getD (k - 3) 0) ^^^ (w.getD (k - 8) 0) ^^^
             (w.getD (k - 14) 0) ^^^ (w.getD (k - 16) 0)
    sha1Extend (w ++ [rotl x 1]) n

/-- The five 32-bit working registers of SHA-1. -/
structure Sha1State where
  a : ℕ
  b : ℕ
  c : ℕ
  d : ℕ
  e : ℕ
deriving DecidableEq, Repr

/-- One SHA-1 round (round index `i`, schedule word `wi`). -/
def sha1Round (st : Sha1State) (i wi : ℕ) : Sha1State :=
  let f :=
    if i < 20 then (st.b &&& st.c) ||| ((st.b ^^^ 4294967295) &&& st.d)
    else if i < 40 then st.b ^^^ st.c ^^^ st.d
    else if i < 60 then (st.b &&& st.c) ||| (st.b &&& st.d) ||| (st.c &&& st.d)
    else st.b ^^^ st.c ^^^ st.d
  let k :=
    if i < 20 then 1518500249
    else if i < 40 then 1859775393
    else if i < 60 then 2400959708
    else 3395469782
  let temp := w32 (rotl st.a 5 + f + st.e + k + wi)
  ⟨temp, st.a, rotl st.b 30, st.c, st.d⟩

/-- SHA-1 compression of one 64-byte block. -/
def sha1Block (h : Sha1State) (block : List ℕ) : Sha1State :=
  let w := sha1Extend (toWords block) 64
  let st := (w.enum).foldl (fun st p => sha1Round st p.1 p.2) h
  ⟨w32 (h.a + st.a), w32 (h.b + st.b), w32 (h.c + st.c), w32 (h.d + st.d),
   w32 (h.e + st.e)⟩

/-- The SHA-1 initialization vector. -/
def sha1Init : Sha1State :=
  ⟨1732584193, 4023233417, 2562383102, 271733878, 3285377520⟩

/-- Big-endian bytes of one 32-bit word. -/
def word4Bytes (n : ℕ) : List ℕ :=
  [(n >>> 24) % 256, (n >>> 16) % 256, (n >>> 8) % 256, n % 256]

/-- SHA-1 digest (20 bytes) of a byte list. -/
def sha1 (msg : List ℕ) : List ℕ :=
  let st := (chunks64 (sha1Pad msg)).foldl sha1Block sha1Init
  word4Bytes st.a ++ word4Bytes st.b ++ word4Bytes st.c ++
  word4Bytes st.d ++ word4Bytes st.e

/-- Lowercase hex digit. -/
def hexChar (n : ℕ) : Char :=
  if n < 10 then Char.ofNat (48 + n) else Char.ofNat (87 + n)

/-- Two lowercase hex digits of a byte. -/
def byteHex (n : ℕ) : List Char := [hexChar (n / 16), hexChar (n % 16)]

/-- Embeds `hashlib.sha1(url.encode("utf-8")).hexdigest()[:10]` from
`build_filename`: the first 10 characters of the lowercase hex digest. -/
def urlDigest (url : String) : String :=
  ⟨(((sha1 (utf8Encode url)).foldr (fun b acc => byteHex b ++ acc) []).take 10)⟩

/-! ## fs.py: build_filename -/

/-- A UTC wall-clock instant at second granularity, standing for the
`datetime` value `now or datetime.now(timezone.utc)` in `build_filename`. -/
structure DateTime where
  year : ℕ
  month : ℕ
  day : ℕ
  hour : ℕ
  minute : ℕ
  second : ℕ
deriving DecidableEq, Repr

/-- Zero-pad the decimal representation of `n` to `width` digits (as the
`strftime` field formats do). -/
def padNum (width n : ℕ) : String :=
  let s := toString n
  ⟨List.replicate (width - s.data.length) '0' ++ s.data⟩

/-- Embeds `current.strftime("%Y%m%dT%H%M%S")`. -/
def formatTimestamp (t : DateTime) : String :=
  padNum 4 t.year ++ padNum 2 t.month ++ padNum 2 t.day ++ "T" ++
  padNum 2 t.hour ++ padNum 2 t.minute ++ padNum 2 t.second

/-- Embeds `build_filename` from `fs.py`; the `now` argument stands for
the wall-clock time used (`now or datetime.now(timezone.utc)`). -/
def build_filename (provider url extension : String) (now : DateTime) : String :=
  let timestamp := formatTimestamp now
  let digest := urlDigest url
  let normalizedExtension :=
    if extension.data.head? = some '.' then extension else "." ++ extension
  provider ++ "_" ++ timestamp ++ "_" ++ digest ++ normalizedExtension

/-! ## fs.py: extension_from_content_type

The URL fallback branch calls `Path(urlparse(url).path).suffix`, so the
embedding includes the path extraction of `urllib.parse.urlsplit` and the
`suffix` property of `pathlib.PurePosixPath` (both Python standard
library). `urlsplit` raises `ValueError("Invalid IPv6 URL")` when the
authority component has a mismatched square bracket, so the extraction is
`Except String`. -/

/-- C0 control characters and space, stripped from both ends of a URL by
`urlsplit`. -/
def isC0OrSpace (c : Char) : Bool := c.toNat ≤ 32

/-- Characters `urlsplit` removes everywhere in a URL. -/
def isUnsafeUrlChar (c : Char) : Bool := c = '\t' ∨ c = '\r' ∨ c = '\n'

/-- The characters Python's `urllib.parse` accepts in a scheme after the
leading letter. -/
def isSchemeChar (c : Char) : Bool :=
  ('a' ≤ c ∧ c ≤ 'z') ∨ ('A' ≤ c ∧ c ≤ 'Z') ∨ ('0' ≤ c ∧ c ≤ '9') ∨
  c = '+' ∨ c = '-' ∨ c = '.'

/-- ASCII letter test (for the first character of a scheme). -/
def isAsciiAlpha (c : Char) : Bool :=
  ('a' ≤ c ∧ c ≤ 'z') ∨ ('A' ≤ c ∧ c ≤ 'Z')

/-- The character-level preprocessing of `urllib.parse.urlsplit`: strip
C0 controls and spaces at both ends, remove tab/CR/LF everywhere, and
strip a leading `scheme:` when the text before the first ':' is a valid
scheme (a letter followed by scheme characters); the lowered scheme
itself is unused by `extension_from_content_type`. -/
def urlPreprocess (url : String) : List Char :=
  let l := (url.data.dropWhile isC0OrSpace).reverse.dropWhile isC0OrSpace |>.reverse
  let l := l.filter (fun c => ¬ isUnsafeUrlChar c)
  match l.findIdx? (fun c => c = ':') with
  | none => l
  | some i =>
    if 0 < i ∧ isAsciiAlpha (l.headD ' ') ∧
        (l.take i).all isSchemeChar then
      l.drop (i + 1)
    else l

/-- A character terminating the netloc of a URL. -/
def isNetlocEnd (c : Char) : Bool := c = '/' ∨ c = '?' ∨ c = '#'

/-- Path component of `urlsplit(url)`, or the `ValueError` message it
raises. Follows `urllib.parse.urlsplit`: after `urlPreprocess`, split off
a `//netloc` (raising `Invalid IPv6 URL` on a mismatched square
bracket), then drop the `#fragment` and `?query` parts. -/
def urlsplitPath (url : String) : Except String String :=
  match urlPreprocess url with
  | '/' :: '/' :: rest =>
    if ('[' ∈ rest.takeWhile (fun c => ¬ isNetlocEnd c)) ≠
       (']' ∈ rest.takeWhile (fun c => ¬ isNetlocEnd c)) then
      .error "Invalid IPv6 URL"
    else
      .ok ⟨(((rest.dropWhile (fun c => ¬ isNetlocEnd c)).takeWhile
        (fun c => c ≠ '#')).takeWhile (fun c => c ≠ '?'))⟩
  | l => .ok ⟨(l.takeWhile (fun c => c ≠ '#')).takeWhile (fun c => c ≠ '?')⟩

/-- The `name` of a `PurePosixPath`: the last component, after dropping
empty components and `.` components. -/
def posixPathName (p : String) : String :=
  ((p.data.splitOn '/').filter (fun c => c ≠ [] ∧ c ≠ ['.'])).getLastD [] |> String.mk

/-- The `suffix` of a `PurePosixPath`: from the last dot of the name,
provided that dot is neither the first nor the last character. -/
def posixPathSuffix (p : String) : String :=
  let name := (posixPathName p).data
  match (name.reverse.findIdx? (fun c => c = '.')) with
  | none => ""
  | some ri =>
    let i := name.length - 1 - ri
    if 0 < i ∧ i < name.length - 1 then ⟨name.drop i⟩ else ""

/-- Embeds `CONTENT_TYPE_EXTENSION_MAP` from `fs.py`. -/
def CONTENT_TYPE_EXTENSION_MAP : List (String × String) :=
  [("jpeg", "jpg"), ("pjpeg", "jpg"), ("svg+xml", "svg"),
   ("x-icon", "ico"), ("vnd.microsoft.icon", "ico")]

/-- Embeds `dict.get(key, default)` over an association list. -/
def dictGetD (m : List (String × String)) (key dflt : String) : String :=
  match m.find? (fun p => p.1 = key) with
  | some p => p.2
  | none => dflt

/-- Embeds the regex test `re.fullmatch(r"[a-z0-9]{1,10}", s)`. -/
def isLowerAlnumToken (s : String) : Bool :=
  1 ≤ s.data.length ∧ s.data.length ≤ 10 ∧
  s.data.all (fun c => ('a' ≤ c ∧ c ≤ 'z') ∨ ('0' ≤ c ∧ c ≤ '9'))

/-- Embeds the regex test `re.fullmatch(r"\.[a-z0-9]{1,10}", s)`. -/
def isDotLowerAlnumToken (s : String) : Bool :=
  match s.data with
  | '.' :: rest =>
    1 ≤ rest.length ∧ rest.length ≤ 10 ∧
    rest.all (fun c => ('a' ≤ c ∧ c ≤ 'z') ∨ ('0' ≤ c ∧ c ≤ '9'))
  | _ => false

/-- The subtype-to-extension mapping of `extension_from_content_type`:
look the subtype up in `CONTENT_TYPE_EXTENSION_MAP` (defaulting to
itself) and cut a `+`-suffix unless the value is `svg+xml`. -/
def mappedSubtype (normalized : String) : String :=
  let subtype : String := ⟨normalized.data.drop 6⟩
  let mapped := dictGetD CONTENT_TYPE_EXTENSION_MAP subtype subtype
  if '+' ∈ mapped.data ∧ mapped ≠ "svg+xml" then
    ⟨mapped.data.takeWhile (fun c => c ≠ '+')⟩
  else mapped

/-- The content-type branch of `extension_from_content_type` (`fs.py`
lines 39-47): a `none` or empty content type is falsy in Python and skips
the branch; an `image/...` subtype is mapped by `mappedSubtype` and gated
by the `[a-z0-9]{1,10}` regex. -/
def extensionFromHeader (contentType : Option String) : Option String :=
  match contentType with
  | none => none
  | some ct =>
    if ct = "" then none
    else
      let normalized := pyLower (pyStrip ⟨ct.data.takeWhile (fun c => c ≠ ';')⟩)
      if normalized.data.take 6 = "image/".data then
        if isLowerAlnumToken (mappedSubtype normalized) then
          some ("." ++ mappedSubtype normalized)
        else none
      else none

/-- Embeds `extension_from_content_type` from `fs.py`:
`extensionFromHeader` when it yields an extension, otherwise the URL-path
fallback. -/
def extension_from_content_type (contentType : Option String) (url : String) :
    Except String String :=
  match extensionFromHeader contentType with
  | some ext => .ok ext
  | none =>
    match urlsplitPath url with
    | .error e => .error e
    | .ok path =>
      if isDotLowerAlnumToken (pyLower (posixPathSuffix path)) then
        .ok (pyLower (posixPathSuffix path))
      else .ok ".img"

/-- Modelled from the spec: `ensure_category_dir`, which `downloader.py`
imports from `fs.py` but which is absent from the source of `fs.py`. Per
the spec's on-disk layout `<out_dir>/<theme>/<provider>_..._<hash>.<ext>`,
it resolves (and idempotently creates) the per-category directory
directly under the output directory. Directory creation is an
I/O side effect outside the embedding; the returned path is modelled. -/
def ensure_category_dir (outDir category : String) : String :=
  outDir ++ "/" ++ category

/-! ## downloader.py: the per-candidate retry loop -/

/-- Embeds `BACKOFF_SCHEDULE = (0.5, 1.0, 2.0)` (exact rationals; the
floats are dyadic). -/
def BACKOFF_SCHEDULE : List ℚ := [mkRat 1 2, 1, 2]

/-- Embeds `_retry_delay`: index into the schedule, clamped to its last
entry. -/
def _retry_delay (attemptIndex : ℕ) : ℚ :=
  if attemptIndex < BACKOFF_SCHEDULE.length then BACKOFF_SCHEDULE.getD attemptIndex 0
  else BACKOFF_SCHEDULE.getLastD 0

/-- An exception raised inside the `try` body of `_download_one`, as seen
by its `except` clause: `_is_retryable` of the exception, and `str(exc)`.
`retryable` is true exactly for `httpx.TimeoutException`/`httpx.RequestError`
and for `httpx.HTTPStatusError` with status ≥ 500. -/
structure Failure where
  retryable : Bool
  msg : String
deriving DecidableEq, Repr

/-- The environment's answer to one `client.get(image.url)` call:
either a connection-level error (an `httpx.RequestError`, which includes
the timeout exceptions — carrying `str(exc)`), or a response. -/
structure HttpResponse where
  /-- HTTP status code of the response. -/
  status : ℕ
  /-- The message `str(exc)` of the `httpx.HTTPStatusError` that
  `raise_for_status` raises when the status is not 2xx (produced by the
  httpx library, hence environment data). -/
  statusMessage : String
  /-- `response.headers.get("content-type")`, `none` when absent. -/
  contentType : Option String
  /-- When some, the message of the `OSError` raised by the filesystem
  steps (directory creation or the atomic temp-file write). -/
  ioError : Option String
deriving DecidableEq, Repr

/-- Outcome of one attempt's `client.get`. -/
inductive Outcome where
  | netErr (msg : String)
  | resp (r : HttpResponse)
deriving DecidableEq, Repr

/-- The `ok` result built on the success path of `_download_one`. -/
def okResult (image : RemoteImage) (destination : String) : DownloadResult :=
  { url := image.url, path := some destination, provider := image.provider,
    status := .ok, error := none }

/-- The `try` body of one attempt of `_download_one`: GET, `raise_for_status`,
content-type gate, extension, destination path, atomic write. Returns the
`ok` result or the exception caught by the `except` clause, classified by
`_is_retryable`. `now` is the wall-clock time at which `build_filename`
runs during this attempt. -/
def attemptStep (image : RemoteImage) (outDir : String) (now : DateTime)
    (o : Outcome) : Except Failure DownloadResult :=
  match o with
  | .netErr msg => .error ⟨true, msg⟩
  | .resp r =>
    if 200 ≤ r.status ∧ r.status < 300 then
      if (pyLower (r.contentType.getD "")).data.take 6 = "image/".data then
        match extension_from_content_type (some (r.contentType.getD "")) image.url with
        | .error e => .error ⟨false, e⟩
        | .ok extension =>
          match r.ioError with
          | some msg => .error ⟨false, msg⟩
          | none =>
            .ok (okResult image (ensure_category_dir outDir image.category ++ "/" ++
              build_filename image.provider image.url extension now))
      else
        .error ⟨false, "Non-image content type: " ++
          (if r.contentType.getD "" = "" then "missing" else r.contentType.getD "")⟩
    else
      .error ⟨500 ≤ r.status, r.statusMessage⟩

/-- The result `_download_one` returns when every loop iteration has run
without returning (`downloader.py` lines 100-106; unreachable). -/
def unreachableRetryResult (image : RemoteImage) : DownloadResult :=
  { url := image.url, path := none, provider := image.provider,
    status := .failed, error := some "Unreachable retry branch" }

/-- The `failed` result built in the `except` clause. -/
def failedResult (image : RemoteImage) (msg : String) : DownloadResult :=
  { url := image.url, path := none, provider := image.provider,
    status := .failed, error := some msg }

/-- The `for attempt in range(retries + 1)` loop of `_download_one`,
starting at index `attempt` with `fuel` iterations left. Returns the
result, the total number of attempts made (one more than the index of the
last attempt), and the list of backoff sleeps performed. `env n` is the
outcome of attempt `n`'s GET, `clock n` the wall-clock time of attempt
`n`'s write. -/
def downloadGo (image : RemoteImage) (outDir : String) (env : ℕ → Outcome)
    (clock : ℕ → DateTime) (retries : ℕ) : ℕ → ℕ → DownloadResult × ℕ × List ℚ
  | _, 0 => (unreachableRetryResult image, 0, [])
  | attempt, fuel + 1 =>
    match attemptStep image outDir (clock attempt) (env attempt) with
    | .ok res => (res, attempt + 1, [])
    | .error f =>
      if attempt < retries ∧ f.retryable then
        let rest := downloadGo image outDir env clock retries (attempt + 1) fuel
        (rest.1, rest.2.1, _retry_delay attempt :: rest.2.2)
      else
        (failedResult image f.msg, attempt + 1, [])

/-- Embeds `_download_one` from `downloader.py`: the loop over attempt
indices `0 .. retries` (so `retries + 1` iterations of fuel). -/
def _download_one (image : RemoteImage) (outDir : String) (env : ℕ → Outcome)
    (clock : ℕ → DateTime) (retries : ℕ) : DownloadResult × ℕ × List ℚ :=
  downloadGo image outDir env clock retries 0 (retries + 1)

/-- Embeds `download_candidates`: one result per candidate. The bounded
worker pool is abstracted: each candidate's whole retry sequence runs in
one slot and appends exactly one result; the environment maps each
candidate to its per-attempt outcomes and wall-clock times. Completion
order is represented by input order (no claim depends on it), and an
empty input yields an empty output with no pool or client created. -/
def download_candidates (candidates : List RemoteImage) (outDir : String)
    (env : RemoteImage → ℕ → Outcome) (clock : RemoteImage → ℕ → DateTime)
    (retries : ℕ) : List DownloadResult :=
  candidates.map (fun image => (_download_one image outDir (env image) (clock image) retries).1)

/-! ## downloader.py: DownloadRunner -/

/-- Embeds `DownloadRunner._fetch_single_provider`. The provider's
`fetch_candidates` coroutine is the environment boundary: `fetch name
count` is the list it would return for this run's rating/timeout/theme.
Returns the fetched candidates and the warnings appended. -/
def _fetch_single_provider (fetch : String → ℕ → List RemoteImage)
    (theme rating : String) (providerName : String) (count : ℕ) :
    List RemoteImage × List String :=
  match get_provider providerName with
  | none => ([], [])
  | some provider =>
    if theme ∉ provider.supportedThemes then
      ([], [providerName ++ " does not support theme '" ++ theme ++ "'. Supported: " ++
        String.intercalate ", " provider.supportedThemes ++ "."])
    else if rating ∉ provider.supportedRatings then
      ([], [providerName ++ " does not support rating '" ++ rating ++ "'. Supported: " ++
        String.intercalate ", " provider.supportedRatings ++ "."])
    else
      (fetch providerName count, [])

/-- The provider loop of `_fetch_auto_candidates`: stop when the
remaining deficit `count - len(collected)` is ≤ 0, otherwise fetch up to
the deficit from the next provider and append. -/
def fetchAutoLoop (fetch : String → ℕ → List RemoteImage) (theme rating : String)
    (count : ℕ) : List String → List RemoteImage → List String →
    List RemoteImage × List String
  | [], collected, warnings => (collected, warnings)
  | name :: rest, collected, warnings =>
    if count ≤ collected.length then (collected, warnings)
    else
      let (fetched, w) :=
        _fetch_single_provider fetch theme rating name (count - collected.length)
      fetchAutoLoop fetch theme rating count rest (collected ++ fetched) (warnings ++ w)

/-- Embeds `DownloadRunner._fetch_auto_candidates`: run the loop over the
registry's auto order, then truncate the raw collected list to `count`. -/
def _fetch_auto_candidates (fetch : String → ℕ → List RemoteImage)
    (theme rating : String) (count : ℕ) : List RemoteImage × List String :=
  ((fetchAutoLoop fetch theme rating count (get_auto_provider_order rating theme) [] []).1.take
     count,
   (fetchAutoLoop fetch theme rating count (get_auto_provider_order rating theme) [] []).2)

/-- Embeds `DownloadRunner._fetch_candidates`: dispatch on the provider
name. -/
def _fetch_candidates (fetch : String → ℕ → List RemoteImage)
    (providerName theme rating : String) (count : ℕ) :
    List RemoteImage × List String :=
  if providerName = "auto" then _fetch_auto_candidates fetch theme rating count
  else _fetch_single_provider fetch theme rating providerName count

/-- The body of `DownloadRunner.run` from the acquired candidate list on:
dedup, append duplicate results, truncate the unique list to `count` when
it exceeds it, download, append download results. -/
def runFromCandidates (count : ℕ) (candidates : List RemoteImage)
    (outDir : String) (env : RemoteImage → ℕ → Outcome)
    (clock : RemoteImage → ℕ → DateTime) (retries : ℕ) : List DownloadResult :=
  (dedupe_candidates candidates).2 ++
    download_candidates
      (if count < (dedupe_candidates candidates).1.length then
        (dedupe_candidates candidates).1.take count
      else (dedupe_candidates candidates).1)
      outDir env clock retries

/-- Embeds `DownloadRunner.run`: acquire candidates, then the dedup /
truncate / download / merge pipeline. Returns the results and warnings. -/
def DownloadRunner_run (count : ℕ) (providerName theme rating : String)
    (outDir : String) (fetch : String → ℕ → List RemoteImage)
    (env : RemoteImage → ℕ → Outcome) (clock : RemoteImage → ℕ → DateTime)
    (retries : ℕ) : List DownloadResult × List String :=
  let (candidates, warnings) := _fetch_candidates fetch providerName theme rating count
  (runFromCandidates count candidates outDir env clock retries, warnings)

/-- Embeds `DownloadRunner.summary`: counts derived from the result
statuses; `output_dir` is the resolved path (resolution being an
OS-level operation, the model keeps the given string). -/
def DownloadRunner_summary (count : ℕ) (results : List DownloadResult)
    (outDir : String) : DownloadSummary :=
  { requested := count
    downloaded := (results.filter (fun r => r.status = .ok)).length
    failed := (results.filter (fun r => r.status = .failed)).length
    duplicates := (results.filter (fun r => r.status = .skippedDuplicate)).length
    outputDir := outDir }

/-- Embeds `DownloadRunner.exit_code`: 0 when `summary.downloaded` equals
the requested count, else 1. -/
def DownloadRunner_exit_code (count : ℕ) (results : List DownloadResult)
    (outDir : String) : ℕ :=
  if (DownloadRunner_summary count results outDir).downloaded = count then 0 else 1

/-! ## Providers: payload parsing and fetch logic

The decoded JSON value of an upstream response is modelled by `Json`; a
provider fetch takes the payload (or `none` when the request or the JSON
decode failed, both of which the provider swallows with a logged warning)
as an environment argument. -/

/-- A decoded JSON value (`response.json()`). -/
inductive Json where
  | null
  | bool (b : Bool)
  | num (n : ℤ)
  | str (s : String)
  | arr (items : List Json)
  | obj (fields : List (String × Json))

/-- Embeds `Mapping.get(key)` (`None` when absent). -/
def jsonLookup (fields : List (String × Json)) (key : String) : Option Json :=
  (fields.find? (fun p => p.1 = key)).map Prod.snd

/-- Python truthiness of a decoded JSON value. -/
def jsonTruthy : Json → Bool
  | .null => false
  | .bool b => b
  | .num n => n ≠ 0
  | .str s => s ≠ ""
  | .arr items => !items.isEmpty
  | .obj fields => !fields.isEmpty

/-- Embeds `dict.get(key)` over a string-to-string table (`None` when
absent). -/
def dictGet (m : List (String × String)) (key : String) : Option String :=
  (m.find? (fun p => p.1 = key)).map Prod.snd

/-- Embeds `str.split()` (split on whitespace runs, no empty parts). -/
def pySplitWhitespace (s : String) : List String :=
  ((s.data.splitOnP isPySpace).filter (fun l => l ≠ [])).map String.mk

/-! ### nekosapi.py -/

/-- One iteration of the item loop of `parse_nekosapi_payload`: `none`
when the item is skipped (`continue`). -/
def nekosapiItem (theme : String) (item : Json) : Option RemoteImage :=
  match item with
  | .obj fields =>
    match jsonLookup fields "url" with
    | some (.str url) =>
      if url = "" then none
      else
        let tagsField := (jsonLookup fields "tags").getD (.arr [])
        let tags :=
          match tagsField with
          | .arr ts => ts.filterMap (fun t => match t with | .str s => some s | _ => none)
          | _ => []
        let rating := normalize_rating
          (match jsonLookup fields "rating" with | some (.str s) => some s | _ => none)
        some { provider := "nekosapi", category := theme, url := url,
               rating := rating, tags := tags }
    | _ => none
  | _ => none

/-- Embeds `parse_nekosapi_payload`: `payload.get("value", [])` must be a
list (else `ValueError`), each mapping item with a non-empty string `url`
becomes a candidate. -/
def parse_nekosapi_payload (payload : List (String × Json)) (theme : String) :
    Except String (List RemoteImage) :=
  match (jsonLookup payload "value").getD (.arr []) with
  | .arr items => .ok (items.filterMap (nekosapiItem theme))
  | _ => .error "nekosapi payload must include a list in 'value'"

/-- Embeds `NekosApiProvider.fetch_candidates`. The HTTP request (with
params `tags=THEME_TAGS[theme]`, `limit=count`, and `rating` unless
"any") is the environment boundary: `payload` is its decoded JSON
response, `none` when the request or decode failed (swallowed with a
warning). A non-mapping payload is also swallowed. Note there is no
rating guard and no truncation of the parsed list. -/
def nekosapi_fetch_candidates (count : ℕ) (_rating theme : String)
    (payload : Option Json) : Except String (List RemoteImage) :=
  if count = 0 then .ok []
  else if theme ∉ nekosApiInfo.supportedThemes then .ok []
  else
    match payload with
    | none => .ok []
    | some (.obj fields) => parse_nekosapi_payload fields theme
    | some _ => .ok []

/-! ### nekos_best.py -/

/-- One iteration of the item loop of `parse_nekos_best_payload`. -/
def nekosBestItem (theme : String) (item : Json) : Option RemoteImage :=
  match item with
  | .obj fields =>
    match jsonLookup fields "url" with
    | some (.str url) =>
      if url = "" then none
      else some { provider := "nekos_best", category := theme, url := url,
                  rating := "safe", tags := [theme, "nekos.best"] }
    | _ => none
  | _ => none

/-- Embeds `parse_nekos_best_payload`. -/
def parse_nekos_best_payload (payload : List (String × Json)) (theme : String) :
    Except String (List RemoteImage) :=
  match (jsonLookup payload "results").getD (.arr []) with
  | .arr items => .ok (items.filterMap (nekosBestItem theme))
  | _ => .error "nekos.best payload must include a list in 'results'"

/-- Embeds `NekosBestProvider.fetch_candidates` (request params:
`amount=count`). As for nekosapi, the parsed list is not truncated. -/
def nekos_best_fetch_candidates (count : ℕ) (rating theme : String)
    (payload : Option Json) : Except String (List RemoteImage) :=
  if count = 0 then .ok []
  else if theme ∉ nekosBestInfo.supportedThemes ∨
          rating ∉ nekosBestInfo.supportedRatings then .ok []
  else
    match payload with
    | none => .ok []
    | some (.obj fields) => parse_nekos_best_payload fields theme
    | some _ => .ok []

/-! ### e621.py -/

/-- Embeds `DEFAULT_USER_AGENT` from `e621.py`. -/
def DEFAULT_USER_AGENT : String := "catgirl-downloader/0.1 (set E621_USER_AGENT in .env)"

/-- Embeds `E621_RATING_MAP`. -/
def E621_RATING_MAP : List (String × String) :=
  [("s", "safe"), ("q", "suggestive"), ("e", "explicit")]

/-- The request headers of `E621Provider.fetch_candidates`:
`os.getenv("E621_USER_AGENT", DEFAULT_USER_AGENT)`; the process
environment is `env`. This is the only environment variable the e621
provider reads. -/
def e621Headers (env : String → Option String) : List (String × String) :=
  [("User-Agent", (env "E621_USER_AGENT").getD DEFAULT_USER_AGENT)]

/-- The tag-collection loop of `parse_e621_payload`: extend with the
string entries of each list value of the `tags` mapping, stopping once
more than 32 tags have been collected. -/
def e621CollectTags (tags : List String) : List Json → List String
  | [] => tags
  | v :: rest =>
    match v with
    | .arr vs =>
      let extended := tags ++ vs.filterMap (fun j => match j with | .str s => some s | _ => none)
      if 32 < extended.length then extended else e621CollectTags extended rest
    | _ => e621CollectTags tags rest

/-- One iteration of the post loop of `parse_e621_payload`. -/
def e621Post (theme : String) (post : Json) : Option RemoteImage :=
  match post with
  | .obj fields =>
    match jsonLookup fields "file" with
    | some (.obj fileInfo) =>
      match jsonLookup fileInfo "url" with
      | some (.str url) =>
        if url = "" then none
        else
          let tags :=
            match jsonLookup fields "tags" with
            | some (.obj tagsMap) => e621CollectTags [theme, "e621"] (tagsMap.map Prod.snd)
            | _ => [theme, "e621"]
          let rating := normalize_rating
            (match jsonLookup fields "rating" with
             | some (.str s) => dictGet E621_RATING_MAP s
             | _ => none)
          some { provider := "e621", category := theme, url := url,
                 rating := rating, tags := tags.take 32 }
      | _ => none
    | _ => none
  | _ => none

/-- Embeds `parse_e621_payload`. -/
def parse_e621_payload (payload : List (String × Json)) (theme : String) :
    Except String (List RemoteImage) :=
  match (jsonLookup payload "posts").getD (.arr []) with
  | .arr posts => .ok (posts.filterMap (e621Post theme))
  | _ => .error "e621 payload must include a list in 'posts'"

/-- The tail of `E621Provider.fetch_candidates` after the requests
(`e621.py` lines 134-142): swallow a missing or non-mapping payload,
parse, shuffle when randomizing, truncate to `count`. -/
def e621Finish (count : ℕ) (theme : String) (randomize : Bool)
    (payload : Option Json) (shuffle : List RemoteImage → List RemoteImage) :
    Except String (List RemoteImage) :=
  match payload with
  | none => .ok []
  | some (.obj fields) =>
    match parse_e621_payload fields theme with
    | .error e => .error e
    | .ok candidates =>
      .ok ((if randomize ∧ candidates ≠ [] then shuffle candidates
            else candidates).take count)
  | some _ => .ok []

/-- Embeds `E621Provider.fetch_candidates`. `env` is the process
environment (used only for the User-Agent header); `payload₁` is the
decoded response of the first request (`none` on a swallowed wire/decode
error), `payload₂` of the non-randomized fallback request issued when the
randomized request parses to zero candidates; `shuffle` stands for
`random.shuffle`. There is no credential check: the provider proceeds
with the default User-Agent when `E621_USER_AGENT` is unset. -/
def e621_fetch_candidates (env : String → Option String) (count : ℕ)
    (_rating theme : String) (randomize : Bool) (payload₁ payload₂ : Option Json)
    (shuffle : List RemoteImage → List RemoteImage) :
    Except String (List RemoteImage) :=
  if count = 0 then .ok []
  else if theme ∉ e621Info.supportedThemes then .ok []
  else
    let _headers := e621Headers env
    match payload₁ with
    | none => .ok []
    | some p₁ =>
      if randomize then
        match p₁ with
        | .obj fields =>
          match parse_e621_payload fields theme with
          | .error e => .error e
          | .ok parsed =>
            if parsed = [] then e621Finish count theme randomize payload₂ shuffle
            else e621Finish count theme randomize (some p₁) shuffle
        | _ => e621Finish count theme randomize payload₂ shuffle
      else e621Finish count theme randomize (some p₁) shuffle

/-! ### rule34.py -/

/-- Embeds `R34_RATING_MAP`. -/
def R34_RATING_MAP : List (String × String) :=
  [("s", "safe"), ("q", "suggestive"), ("e", "explicit"),
   ("safe", "safe"), ("questionable", "suggestive"), ("explicit", "explicit")]

/-- One iteration of the post loop of `parse_rule34_payload`. The URL is
the first truthy of `file_url`/`sample_url`/`preview_url` (Python `or`
chain), required to be a non-empty string; a `//`-relative URL gets the
`https:` scheme. -/
def rule34Post (theme : String) (post : List (String × Json)) : Option RemoteImage :=
  let v₁ := (jsonLookup post "file_url").getD .null
  let v₂ := (jsonLookup post "sample_url").getD .null
  let v₃ := (jsonLookup post "preview_url").getD .null
  let raw := if jsonTruthy v₁ then v₁ else if jsonTruthy v₂ then v₂ else v₃
  match raw with
  | .str rawUrl =>
    if rawUrl = "" then none
    else
      let url :=
        if rawUrl.data.take 2 = ['/', '/'] then "https:" ++ rawUrl else rawUrl
      let rating := normalize_rating
        (match jsonLookup post "rating" with
         | some (.str s) => dictGet R34_RATING_MAP s
         | _ => none)
      let tags :=
        match jsonLookup post "tags" with
        | some (.str tagField) =>
          [theme, "rule34"] ++ (pySplitWhitespace tagField).filter (fun t => t ≠ "")
        | _ => [theme, "rule34"]
      some { provider := "rule34", category := theme, url := url,
             rating := rating, tags := tags.take 32 }
  | _ => none

/-- Embeds `parse_rule34_payload`: accepts a top-level list, a mapping
whose `post` field is a list or a single mapping, and anything else as
zero posts. Total — it never raises. -/
def parse_rule34_payload (payload : Json) (theme : String) : List RemoteImage :=
  let posts : List (List (String × Json)) :=
    match payload with
    | .arr items => items.filterMap (fun j => match j with | .obj f => some f | _ => none)
    | .obj fields =>
      match jsonLookup fields "post" with
      | some (.arr items) =>
        items.filterMap (fun j => match j with | .obj f => some f | _ => none)
      | some (.obj f) => [f]
      | _ => []
    | _ => []
  posts.filterMap (rule34Post theme)

/-- Embeds `Rule34Provider.fetch_candidates`. The provider requires
`RULE34_USER_ID` and `RULE34_API_KEY` in the process environment `env`;
when either is unset or blank after stripping, it returns zero candidates
(with a logged warning). `payload₁`/`payload₂`/`shuffle` are as for
e621. -/
def rule34_fetch_candidates (env : String → Option String) (count : ℕ)
    (_rating theme : String) (randomize : Bool) (payload₁ payload₂ : Option Json)
    (shuffle : List RemoteImage → List RemoteImage) : List RemoteImage :=
  if count = 0 then []
  else if theme ∉ rule34Info.supportedThemes then []
  else
    let userId := pyStrip ((env "RULE34_USER_ID").getD "")
    let apiKey := pyStrip ((env "RULE34_API_KEY").getD "")
    if userId = "" ∨ apiKey = "" then []
    else
      match payload₁ with
      | none => []
      | some p₁ =>
        let payload : Option Json :=
          if randomize then
            if parse_rule34_payload p₁ theme = [] then payload₂ else some p₁
          else some p₁
        match payload with
        | none => []
        | some p =>
          let candidates := parse_rule34_payload p theme
          let candidates :=
            if randomize ∧ candidates ≠ [] then shuffle candidates else candidates
          candidates.take count

/-! ## Concrete fixtures

Concrete inputs used to instantiate the theorems below (witnesses and
counterexamples), mirroring the shapes used by the repository's tests. -/

/-- A fixed wall clock: every attempt writes at 2026-01-02T03:04:05Z. -/
def fixtureClock : ℕ → DateTime := fun _ => ⟨2026, 1, 2, 3, 4, 5⟩

/-- The fixed wall clock, per candidate. -/
def fixtureClockAll : RemoteImage → ℕ → DateTime := fun _ _ => ⟨2026, 1, 2, 3, 4, 5⟩

/-- A candidate whose URL repeats in dedup fixtures. -/
def imgDup : RemoteImage :=
  ⟨"nekosapi", "catgirl", "https://img.example/dup.webp", "safe", []⟩

/-- Fixture candidate a. -/
def imgA : RemoteImage := ⟨"nekosapi", "catgirl", "https://img.example/a.png", "safe", []⟩

/-- Fixture candidate b. -/
def imgB : RemoteImage := ⟨"nekosapi", "catgirl", "https://img.example/b.png", "safe", []⟩

/-- Fixture candidate c. -/
def imgC : RemoteImage := ⟨"nekosapi", "catgirl", "https://img.example/c.png", "safe", []⟩

/-- Every GET times out (a connection-level, retryable error). -/
def envNet : RemoteImage → ℕ → Outcome := fun _ _ => .netErr "timed out"

/-- Every GET returns 200 with an image/png body and the write succeeds. -/
def envOkPng : RemoteImage → ℕ → Outcome :=
  fun _ _ => .resp ⟨200, "", some "image/png", none⟩

/-- First attempt gets HTTP 500, later attempts succeed. -/
def envRetry : ℕ → Outcome := fun n =>
  if n = 0 then
    .resp ⟨500, "Server error '500 Internal Server Error' for url", none, none⟩
  else .resp ⟨200, "", some "image/png", none⟩

/-- A provider-fetch environment where nekosapi over-returns: asked for any
count, it yields four candidates (three distinct URLs, one duplicated). -/
def fetchOverReturn : String → ℕ → List RemoteImage :=
  fun name _ => if name = "nekosapi" then [imgA, imgA, imgB, imgC] else []

/-- A nekosapi payload carrying two items (as in the repository's provider
test), used with `count = 1` to exhibit over-return. -/
def nekosapiPayloadTwo : Json := .obj [("value", .arr
  [.obj [("url", .str "https://img.example/neko1.webp"), ("rating", .str "suggestive"),
         ("tags", .arr [.str "catgirl"])],
   .obj [("url", .str "https://img.example/neko2.webp"), ("rating", .str "safe"),
         ("tags", .arr [.str "catgirl", .str "girl"])]])]

/-- An e621 payload carrying one valid post. -/
def e621PayloadOne : Json := .obj [("posts", .arr
  [.obj [("file", .obj [("url", .str "https://static.e621.net/a.png")]),
         ("rating", .str "s"),
         ("tags", .obj [("general", .arr [.str "femboy_tag"])])]])]

/-- A rule34 payload carrying one valid post. -/
def rule34PayloadOne : Json := .arr [.obj [("file_url", .str "https://r34.example/a.png")]]

/-- A process environment with no variables set. -/
def emptyEnv : String → Option String := fun _ => none

/-! ## Theorems -/

lemma dedupeAux_length (l : List RemoteImage) : ∀ seen,
    (dedupeAux seen l).1.length + (dedupeAux seen l).2.length = l.length := by
  induction l with
  | nil => intro seen; simp [dedupeAux]
  | cons x xs ih =>
    intro seen
    by_cases hx : x.url ∈ seen
    · simp only [dedupeAux, if_pos hx]
      have := ih seen
      simp only [List.length_cons]
      omega
    · simp only [dedupeAux, if_neg hx]
      have := ih (x.url :: seen)
      simp only [List.length_cons]
      omega

lemma dedupeAux_eq (l : List RemoteImage) : ∀ (seen : List String),
    dedupeAux seen l =
    (((l.enum.filter
        (fun p => decide (p.2.url ∉ seen ∧
          p.2.url ∉ (l.take p.1).map RemoteImage.url))).map Prod.snd),
     ((l.enum.filter
        (fun p => decide (p.2.url ∈ seen ∨
          p.2.url ∈ (l.take p.1).map RemoteImage.url))).map
        (fun p => duplicateResult p.2))) := by
  induction l with
  | nil => intro seen; simp [dedupeAux, List.enum]
  | cons x xs ih =>
    intro seen
    rw [List.enum_cons']
    by_cases hx : x.url ∈ seen
    · simp only [dedupeAux, if_pos hx, ih seen]
      refine Prod.ext ?_ ?_
      · simp only [List.filter_cons, List.take_zero]
        rw [if_neg (by simp [hx])]
        simp only [List.filter_map, List.map_map]
        refine congrArg _ (List.filter_congr ?_)
        intro p hp
        apply (decide_eq_decide).mpr
        simp only [Function.comp, Prod.map, List.take_succ_cons, List.map_cons,
          List.mem_cons, not_or]
        simp only [id_eq]
        have hxe : p.2.url = x.url → p.2.url ∈ seen := fun he => he ▸ hx
        constructor
        · intro h
          tauto
        · intro h
          tauto
      · simp only [List.filter_cons, List.take_zero]
        rw [if_pos (by simp [hx])]
        simp only [List.map_cons, List.filter_map, List.map_map]
        refine congrArg _ (congrArg _ (List.filter_congr ?_))
        intro p hp
        apply (decide_eq_decide).mpr
        simp only [Function.comp, Prod.map, List.take_succ_cons, List.map_cons, List.mem_cons]
        simp only [id_eq]
        have hxe : p.2.url = x.url → p.2.url ∈ seen := fun he => he ▸ hx
        constructor
        · intro h
          tauto
        · intro h
          tauto
    · simp only [dedupeAux, if_neg hx, ih (x.url :: seen)]
      refine Prod.ext ?_ ?_
      · simp only [List.filter_cons, List.take_zero]
        rw [if_pos (by simp [hx])]
        simp only [List.map_cons, List.filter_map, List.map_map]
        refine congrArg₂ _ rfl (congrArg _ (List.filter_congr ?_))
        intro p hp
        apply (decide_eq_decide).mpr
        simp only [Function.comp, Prod.map, List.take_succ_cons, List.map_cons,
          List.mem_cons, not_or]
        simp only [id_eq]
        constructor
        · intro h
          tauto
        · intro h
          tauto
      · simp only [List.filter_cons, List.take_zero]
        rw [if_neg (by simp [hx])]
        simp only [List.filter_map, List.map_map]
        refine congrArg _ (List.filter_congr ?_)
        intro p hp
        apply (decide_eq_decide).mpr
        simp only [Function.comp, Prod.map, List.take_succ_cons, List.map_cons, List.mem_cons]
        simp only [id_eq]
        constructor
        · intro h
          tauto
        · intro h
          tauto


/-- Claim C3: for every candidate list, `dedupe_candidates` returns
`(unique, duplicate_results)` with `len(unique) + len(duplicate_results)
== len(input)`; `unique` is exactly the first occurrence of each URL in
original relative order (exact, case-sensitive string comparison); and
each later occurrence of a seen URL produces, in encounter order, a
`skipped_duplicate` result with null path and error
"Duplicate URL in candidate list". -/
theorem C3_dedupe_first_occurrences (l : List RemoteImage) :
    dedupe_candidates l = (specFirstOccurrences l, specDuplicateResults l) ∧
    (dedupe_candidates l).1.length + (dedupe_candidates l).2.length = l.length := by
  constructor
  · rw [dedupe_candidates, dedupeAux_eq]
    unfold specFirstOccurrences specDuplicateResults
    have e1 : (fun (p : ℕ × RemoteImage) => decide (p.2.url ∉ ([] : List String) ∧
        p.2.url ∉ (l.take p.1).map RemoteImage.url)) =
        (fun (p : ℕ × RemoteImage) =>
          decide (p.2.url ∉ (l.take p.1).map RemoteImage.url)) := by
      funext p
      apply (decide_eq_decide).mpr
      simp
    have e2 : (fun (p : ℕ × RemoteImage) => decide (p.2.url ∈ ([] : List String) ∨
        p.2.url ∈ (l.take p.1).map RemoteImage.url)) =
        (fun (p : ℕ × RemoteImage) =>
          decide (p.2.url ∈ (l.take p.1).map RemoteImage.url)) := by
      funext p
      apply (decide_eq_decide).mpr
      simp
    rw [e1, e2]
  · exact dedupeAux_length l []

lemma attemptStep_ok_shape {image : RemoteImage} {outDir : String} {now : DateTime}
    {o : Outcome} {r : DownloadResult} (h : attemptStep image outDir now o = .ok r) :
    ∃ ext, r = okResult image (ensure_category_dir outDir image.category ++ "/" ++
      build_filename image.provider image.url ext now) := by
  unfold attemptStep at h
  repeat' split at h
  all_goals first
    | exact ⟨_, (Except.ok.inj h).symm⟩
    | simp at h

lemma downloadGo_result_cases (image : RemoteImage) (outDir : String)
    (env : ℕ → Outcome) (clock : ℕ → DateTime) (retries : ℕ) :
    ∀ fuel attempt,
    (∃ n ext, (downloadGo image outDir env clock retries attempt fuel).1 =
       okResult image (ensure_category_dir outDir image.category ++ "/" ++
         build_filename image.provider image.url ext (clock n))) ∨
    (∃ m, (downloadGo image outDir env clock retries attempt fuel).1 =
       failedResult image m) ∨
    (downloadGo image outDir env clock retries attempt fuel).1 =
       unreachableRetryResult image := by
  intro fuel
  induction fuel with
  | zero => intro attempt; right; right; rfl
  | succ fuel ih =>
    intro attempt
    unfold downloadGo
    cases h : attemptStep image outDir (clock attempt) (env attempt) with
    | ok res =>
      obtain ⟨ext, hres⟩ := attemptStep_ok_shape h
      exact Or.inl ⟨attempt, ext, by simp [hres]⟩
    | error f =>
      by_cases hc : attempt < retries ∧ f.retryable = true
      · simpa [hc] using ih (attempt + 1)
      · right; left
        exact ⟨f.msg, by simp [hc]⟩



lemma downloadGo_spec (image : RemoteImage) (outDir : String) (env : ℕ → Outcome)
    (clock : ℕ → DateTime) (retries : ℕ) :
    ∀ fuel attempt res att sl, attempt ≤ retries → attempt + fuel = retries + 1 →
    downloadGo image outDir env clock retries attempt fuel = (res, att, sl) →
    (attempt + 1 ≤ att ∧ att ≤ retries + 1) ∧
    sl = (List.range (att - 1 - attempt)).map (fun k => _retry_delay (attempt + k)) ∧
    (∀ i, attempt ≤ i → i + 1 < att →
      i < retries ∧ ∃ f, attemptStep image outDir (clock i) (env i) = .error f ∧
        f.retryable = true) ∧
    (match attemptStep image outDir (clock (att - 1)) (env (att - 1)) with
     | .ok r => res = r
     | .error f => res = failedResult image f.msg ∧
         (f.retryable = true → att = retries + 1)) := by
  intro fuel
  induction fuel with
  | zero => intro attempt res att sl h1 h2 _; omega
  | succ fuel ih =>
    intro attempt res att sl h1 h2 heq
    unfold downloadGo at heq
    cases hstep : attemptStep image outDir (clock attempt) (env attempt) with
    | ok r0 =>
      simp only [hstep, Prod.mk.injEq] at heq
      obtain ⟨hres, hatt, hsl⟩ := heq
      subst hres hatt hsl
      refine ⟨⟨le_refl _, by omega⟩, by simp, ?_, ?_⟩
      · intro i hi hlt
        omega
      · simp only [Nat.add_sub_cancel, hstep]
    | error f =>
      simp only [hstep] at heq
      by_cases hc : attempt < retries ∧ f.retryable = true
      · rw [if_pos hc] at heq
        simp only [Prod.mk.injEq] at heq
        obtain ⟨hres, hatt, hsl⟩ := heq
        obtain ⟨⟨hg1, hg2⟩, hg3, hg4, hg5⟩ :=
          ih (attempt + 1)
            (downloadGo image outDir env clock retries (attempt + 1) fuel).1
            (downloadGo image outDir env clock retries (attempt + 1) fuel).2.1
            (downloadGo image outDir env clock retries (attempt + 1) fuel).2.2
            (by omega) (by omega) rfl
        subst hres hatt hsl
        refine ⟨⟨by omega, hg2⟩, ?_, ?_, hg5⟩
        · rw [hg3]
          have hm : (downloadGo image outDir env clock retries (attempt + 1) fuel).2.1
              - 1 - attempt
              = ((downloadGo image outDir env clock retries (attempt + 1) fuel).2.1
                 - 1 - (attempt + 1)) + 1 := by omega
          rw [hm, List.range_succ_eq_map, List.map_cons, List.map_map]
          refine congrArg₂ _ (by simp) ?_
          refine List.map_congr_left ?_
          intro k hk
          simp only [Function.comp]
          congr 1
          omega
        · intro i hi hlt
          rcases Nat.eq_or_lt_of_le hi with hie | hil
          · exact ⟨hie ▸ hc.1, f, hie ▸ hstep, hc.2⟩
          · exact hg4 i hil hlt
      · rw [if_neg hc] at heq
        simp only [Prod.mk.injEq] at heq
        obtain ⟨hres, hatt, hsl⟩ := heq
        subst hres hatt hsl
        refine ⟨⟨le_refl _, by omega⟩, by simp, ?_, ?_⟩
        · intro i hi hlt
          omega
        · simp only [Nat.add_sub_cancel, hstep]
          refine ⟨by first | rfl | trivial, ?_⟩
          intro hr
          have : ¬ attempt < retries := fun hlt => hc ⟨hlt, hr⟩
          omega

lemma mem_dedupe_duplicates {l : List RemoteImage} {r : DownloadResult}
    (h : r ∈ (dedupe_candidates l).2) : ∃ item, r = duplicateResult item := by
  rw [dedupe_candidates, dedupeAux_eq] at h
  simp only [List.mem_map] at h
  obtain ⟨p, _, hp⟩ := h
  exact ⟨p.2, hp.symm⟩

lemma download_one_result_invariant (image : RemoteImage) (outDir : String)
    (env : ℕ → Outcome) (clock : ℕ → DateTime) (retries : ℕ) :
    ((_download_one image outDir env clock retries).1.status = .ok ↔
      (_download_one image outDir env clock retries).1.path ≠ none) ∧
    ((_download_one image outDir env clock retries).1.status = .failed ↔
      (_download_one image outDir env clock retries).1.error ≠ none) := by
  rcases downloadGo_result_cases image outDir env clock retries (retries + 1) 0 with
    ⟨n, ext, h⟩ | ⟨m, h⟩ | h <;>
    rw [show _download_one image outDir env clock retries =
      downloadGo image outDir env clock retries 0 (retries + 1) from rfl, h] <;>
    simp [okResult, failedResult, unreachableRetryResult]

/-- Claim C1 (as stated, refuted): a run over a candidate list with a
repeated URL produces, via dedup, a result whose `error` is non-null but
whose status is `skipped_duplicate`, not `failed` — so "`status == failed`
iff `error` is non-null" fails for results produced by dedup. -/
theorem C1_counterexample :
    ∃ r ∈ runFromCandidates 2 [imgDup, imgDup] "out" envNet fixtureClockAll 0,
      r.error ≠ none ∧ r.status ≠ DownloadStatus.failed := by decide

/-- Claim C1 (amended): for every DownloadResult produced in a run,
`status == ok` iff `path` is non-null, and `status == failed` implies
`error` is non-null; for results produced by the download orchestrator the
converse also holds (`error` non-null iff `failed`), while dedup's
duplicate results carry a non-null `error` with status
`skipped_duplicate`. -/
theorem C1_result_invariants (count : ℕ) (candidates : List RemoteImage)
    (outDir : String) (env : RemoteImage → ℕ → Outcome)
    (clock : RemoteImage → ℕ → DateTime) (retries : ℕ) :
    (∀ r ∈ runFromCandidates count candidates outDir env clock retries,
      (r.status = .ok ↔ r.path ≠ none) ∧ (r.status = .failed → r.error ≠ none)) ∧
    (∀ image (env₁ : ℕ → Outcome) (clock₁ : ℕ → DateTime),
      ((_download_one image outDir env₁ clock₁ retries).1.status = .failed ↔
        (_download_one image outDir env₁ clock₁ retries).1.error ≠ none)) ∧
    (∀ r ∈ (dedupe_candidates candidates).2,
      r.status = .skippedDuplicate ∧ r.error ≠ none) := by
  refine ⟨?_, ?_, ?_⟩
  · intro r hr
    rw [runFromCandidates] at hr
    rcases List.mem_append.mp hr with hd | hdl
    · obtain ⟨item, hitem⟩ := mem_dedupe_duplicates hd
      subst hitem
      simp [duplicateResult]
    · rw [download_candidates] at hdl
      simp only [List.mem_map] at hdl
      obtain ⟨image, _, himg⟩ := hdl
      subst himg
      have h := download_one_result_invariant image outDir (env image) (clock image) retries
      exact ⟨h.1, fun hf => h.2.mp hf⟩
  · intro image env₁ clock₁
    exact (download_one_result_invariant image outDir env₁ clock₁ retries).2
  · intro r hr
    obtain ⟨item, hitem⟩ := mem_dedupe_duplicates hr
    subst hitem
    simp [duplicateResult]

theorem C1_result_invariants_witness :
    ((_download_one imgA "out" (fun _ => Outcome.netErr "timed out") fixtureClock 0).1.status
      = DownloadStatus.failed ↔
     (_download_one imgA "out" (fun _ => Outcome.netErr "timed out") fixtureClock 0).1.error
      ≠ none) :=
  (C1_result_invariants 0 [] "out" envNet fixtureClockAll 0).2.1 imgA
    (fun _ => Outcome.netErr "timed out") fixtureClock

/-- Claim C5: for every completed run, `exit_code()` is 0 iff the number
of `ok` results equals the requested count, and 1 otherwise (any deficit,
including providers having fewer images, yields 1). -/
theorem C5_exit_code (count : ℕ) (results : List DownloadResult) (outDir : String) :
    (DownloadRunner_exit_code count results outDir = 0 ↔
      (results.filter (fun r => r.status = DownloadStatus.ok)).length = count) ∧
    (DownloadRunner_exit_code count results outDir = 1 ↔
      (results.filter (fun r => r.status = DownloadStatus.ok)).length ≠ count) := by
  unfold DownloadRunner_exit_code DownloadRunner_summary
  by_cases h : (results.filter (fun r => r.status = DownloadStatus.ok)).length = count <;>
    simp [h]

theorem C5_exit_code_witness :
    DownloadRunner_exit_code 1 [] "out" = 1 :=
  (C5_exit_code 1 [] "out").2.mpr (by decide)

/-- Claim C2: the per-candidate loop makes between 1 and `retries + 1`
attempts; every non-final attempt failed with a retryable error
(timeout/connection error, or HTTP status ≥ 500) while attempts remained,
and slept per the fixed backoff schedule `[0.5, 1.0, 2.0]` indexed by the
attempt number and clamped to the last value; the final attempt either
succeeds or yields a `failed` result carrying the exception's message —
in particular a non-retryable failure (4xx, non-image content type, I/O
error) ends the loop immediately at that attempt. -/
theorem C2_retry_loop (image : RemoteImage) (outDir : String) (env : ℕ → Outcome)
    (clock : ℕ → DateTime) (retries : ℕ) (res : DownloadResult) (att : ℕ)
    (sl : List ℚ) (heq : _download_one image outDir env clock retries = (res, att, sl)) :
    (1 ≤ att ∧ att ≤ retries + 1) ∧
    sl = (List.range (att - 1)).map _retry_delay ∧
    (∀ i, i + 1 < att → i < retries ∧
      ∃ f, attemptStep image outDir (clock i) (env i) = .error f ∧ f.retryable = true) ∧
    (match attemptStep image outDir (clock (att - 1)) (env (att - 1)) with
     | .ok r => res = r
     | .error f => res = failedResult image f.msg ∧
         (f.retryable = true → att = retries + 1)) ∧
    (_retry_delay 0 = mkRat 1 2 ∧ _retry_delay 1 = 1 ∧
      ∀ j, 2 ≤ j → _retry_delay j = 2) := by
  obtain ⟨⟨hg1, hg2⟩, hg3, hg4, hg5⟩ :=
    downloadGo_spec image outDir env clock retries (retries + 1) 0 res att sl
      (Nat.zero_le _) (by omega) heq
  refine ⟨⟨hg1, hg2⟩, ?_, ?_, hg5, ?_, ?_, ?_⟩
  · rw [hg3]
    refine congrArg₂ _ ?_ rfl
    funext k
    simp
  · intro i hlt
    exact hg4 i (Nat.zero_le _) hlt
  · decide
  · decide
  · intro j hj
    by_cases h3 : j < 3
    · have : j = 2 := by omega
      subst this
      decide
    · unfold _retry_delay
      rw [if_neg (by simpa [BACKOFF_SCHEDULE] using h3)]
      decide

theorem C2_retry_loop_witness :
    ((_download_one imgA "out" envRetry fixtureClock 3).2.1 ≤ 3 + 1) ∧
    (_download_one imgA "out" envRetry fixtureClock 3).2.2 =
      (List.range ((_download_one imgA "out" envRetry fixtureClock 3).2.1 - 1)).map
        _retry_delay := by
  obtain ⟨⟨_, h2⟩, h3, _⟩ := C2_retry_loop imgA "out" envRetry fixtureClock 3 _ _ _ rfl
  exact ⟨h2, h3⟩

/-- Claim C4 (as stated, refuted): in an auto-mode run whose provider
over-returns (nekosapi yields 4 raw candidates — 3 distinct URLs — for a
request of 2), the raw collected list is truncated to `count` before
dedup, so only 1 unique candidate is downloaded instead of the first
`count = 2` unique ones, and the merged result list has length 2, not
`count + duplicates_found = 3` — even though every issued download
succeeds. -/
theorem C4_counterexample :
    2 < (dedupe_candidates (fetchOverReturn "nekosapi" 2)).1.length ∧
    (DownloadRunner_run 2 "auto" "catgirl" "safe" "out" fetchOverReturn envOkPng
        fixtureClockAll 0).1.length = 2 ∧
    2 ≠ 2 + (dedupe_candidates (fetchOverReturn "nekosapi" 2)).2.length ∧
    ((DownloadRunner_run 2 "auto" "catgirl" "safe" "out" fetchOverReturn envOkPng
        fixtureClockAll 0).1.filter
      (fun r => r.status = DownloadStatus.ok)).length = 1 ∧
    ((DownloadRunner_run 2 "auto" "catgirl" "safe" "out" fetchOverReturn envOkPng
        fixtureClockAll 0).1.filter
      (fun r => r.status = DownloadStatus.failed)).length = 0 := by
  refine ⟨by decide, by decide, by decide, by decide, by decide⟩

/-- Claim C4 (amended): `run` truncates after dedup — whenever the
acquired candidate list contains more than `count` unique candidates,
exactly the first `count` unique candidates are passed to the download
orchestrator and the merged result list has length `count + duplicates
found`; in auto mode, however, acquisition additionally hard-truncates
the raw collected list to `count` before dedup ever runs. -/
theorem C4_truncation (count : ℕ) (candidates : List RemoteImage) (outDir : String)
    (env : RemoteImage → ℕ → Outcome) (clock : RemoteImage → ℕ → DateTime)
    (retries : ℕ) :
    (count < (dedupe_candidates candidates).1.length →
      runFromCandidates count candidates outDir env clock retries =
        (dedupe_candidates candidates).2 ++
          download_candidates ((dedupe_candidates candidates).1.take count)
            outDir env clock retries ∧
      (runFromCandidates count candidates outDir env clock retries).length =
        count + (dedupe_candidates candidates).2.length) ∧
    (∀ fetch theme rating,
      ((_fetch_auto_candidates fetch theme rating count).1).length ≤ count) := by
  constructor
  · intro h
    constructor
    · rw [runFromCandidates, if_pos h]
    · rw [runFromCandidates, if_pos h]
      simp only [List.length_append, download_candidates, List.length_map,
        List.length_take]
      omega
  · intro fetch theme rating
    simp [_fetch_auto_candidates, List.length_take_le]

theorem C4_truncation_witness :
    1 < (dedupe_candidates [imgA, imgB]).1.length ∧
    (runFromCandidates 1 [imgA, imgB] "out" envNet fixtureClockAll 0).length =
      1 + (dedupe_candidates [imgA, imgB]).2.length :=
  ⟨by decide, ((C4_truncation 1 [imgA, imgB] "out" envNet fixtureClockAll 0).1 (by decide)).2⟩

/-- Claim C6: every successful download's file path is
`<out_dir>/<category>/<filename>` with the filename produced by
`build_filename` as `<provider>_<YYYYMMDDTHHMMSS>_<10-hex-digit
URL-hash><ext>`; concretely, `build_filename("nekosapi",
"https://example.com/image.png", ".png")` at 2026-01-02T03:04:05Z is
`nekosapi_20260102T030405_01a7df95a5.png`, whose middle component is the
first 10 lowercase hex digits of the SHA-1 of the URL alone. -/
theorem C6_filename_layout :
    (build_filename "nekosapi" "https://example.com/image.png" ".png" ⟨2026, 1, 2, 3, 4, 5⟩
       = "nekosapi_20260102T030405_" ++ urlDigest "https://example.com/image.png" ++ ".png" ∧
     urlDigest "https://example.com/image.png" = "01a7df95a5" ∧
     (urlDigest "https://example.com/image.png").data.length = 10 ∧
     (urlDigest "https://example.com/image.png").data.all
       (fun c => ('0' ≤ c ∧ c ≤ '9') ∨ ('a' ≤ c ∧ c ≤ 'f'))) ∧
    (∀ provider url ext now, build_filename provider url ext now =
      provider ++ "_" ++ formatTimestamp now ++ "_" ++ urlDigest url ++
        (if ext.data.head? = some '.' then ext else "." ++ ext)) ∧
    (∀ outDir category, ensure_category_dir outDir category = outDir ++ "/" ++ category) ∧
    (∀ (image : RemoteImage) (outDir : String) (env : ℕ → Outcome)
        (clock : ℕ → DateTime) (retries : ℕ),
      (_download_one image outDir env clock retries).1.status = DownloadStatus.ok →
      ∃ n ext, (_download_one image outDir env clock retries).1.path =
        some (ensure_category_dir outDir image.category ++ "/" ++
          build_filename image.provider image.url ext (clock n))) := by
  refine ⟨⟨?_, ?_, ?_, ?_⟩, ?_, ?_, ?_⟩
  · set_option maxRecDepth 100000 in decide
  · set_option maxRecDepth 100000 in decide
  · set_option maxRecDepth 100000 in decide
  · set_option maxRecDepth 100000 in decide
  · intro provider url ext now
    rfl
  · intro outDir category
    rfl
  · intro image outDir env clock retries hok
    rcases downloadGo_result_cases image outDir env clock retries (retries + 1) 0 with
      ⟨n, ext, h⟩ | ⟨m, h⟩ | h
    · refine ⟨n, ext, ?_⟩
      rw [show _download_one image outDir env clock retries =
        downloadGo image outDir env clock retries 0 (retries + 1) from rfl, h]
      rfl
    · rw [show _download_one image outDir env clock retries =
        downloadGo image outDir env clock retries 0 (retries + 1) from rfl, h] at hok
      simp [failedResult] at hok
    · rw [show _download_one image outDir env clock retries =
        downloadGo image outDir env clock retries 0 (retries + 1) from rfl, h] at hok
      simp [unreachableRetryResult] at hok

theorem C6_filename_layout_witness :
    ∃ n ext,
      (_download_one imgA "out" (fun _ => Outcome.resp ⟨200, "", some "image/png", none⟩)
        fixtureClock 0).1.path =
      some (ensure_category_dir "out" imgA.category ++ "/" ++
        build_filename imgA.provider imgA.url ext (fixtureClock n)) :=
  C6_filename_layout.2.2.2 imgA "out"
    (fun _ => Outcome.resp ⟨200, "", some "image/png", none⟩) fixtureClock 0 (by decide)

lemma autoOrderFilter_eq_filter (rating theme : String) (names : List String) :
    autoOrderFilter rating theme names =
      names.filter (fun n => providerSupports n theme rating) := by
  induction names with
  | nil => rfl
  | cons n rest ih =>
    cases hgp : get_provider n with
    | none =>
      simp [autoOrderFilter, hgp, List.filter_cons, providerSupports, ih]
    | some p =>
      by_cases ht : theme ∈ p.supportedThemes
      · by_cases hr : rating ∈ p.supportedRatings
        · simp [autoOrderFilter, hgp, ht, hr, List.filter_cons, providerSupports, ih]
        · simp [autoOrderFilter, hgp, ht, hr, List.filter_cons, providerSupports, ih]
      · simp [autoOrderFilter, hgp, ht, List.filter_cons, providerSupports, ih]

/-- Claim C7: the registry's auto-order is the theme's fixed priority
list filtered, preserving order, to the providers whose declared
supported themes contain the theme and whose declared supported ratings
contain the rating; the four themes' base lists are pairwise distinct,
and any other theme value falls back to the default ordering (which is
also `kitsune`'s list, the `else` branch of the source). -/
theorem C7_auto_order (rating theme : String) :
    get_auto_provider_order rating theme =
      (autoBaseOrder theme).filter (fun n => providerSupports n theme rating) ∧
    (autoBaseOrder "catgirl" ≠ autoBaseOrder "neko" ∧
     autoBaseOrder "catgirl" ≠ autoBaseOrder "femboy" ∧
     autoBaseOrder "catgirl" ≠ autoBaseOrder "kitsune" ∧
     autoBaseOrder "neko" ≠ autoBaseOrder "femboy" ∧
     autoBaseOrder "neko" ≠ autoBaseOrder "kitsune" ∧
     autoBaseOrder "femboy" ≠ autoBaseOrder "kitsune") ∧
    (theme ∉ ["catgirl", "neko", "femboy"] →
      autoBaseOrder theme =
        ["nekos_best", "nekos_life", "nekosapi", "waifu_pics", "nekobot"]) := by
  refine ⟨autoOrderFilter_eq_filter rating theme (autoBaseOrder theme), by decide, ?_⟩
  intro h
  simp only [List.mem_cons, List.not_mem_nil, or_false, not_or] at h
  unfold autoBaseOrder
  rw [if_neg h.1, if_neg h.2.1, if_neg h.2.2]

theorem C7_auto_order_witness :
    autoBaseOrder "kitsune" =
      ["nekos_best", "nekos_life", "nekosapi", "waifu_pics", "nekobot"] :=
  (C7_auto_order "safe" "kitsune").2.2 (by decide)

lemma e621Finish_length_le {count : ℕ} {theme : String} {randomize : Bool}
    {payload : Option Json} {shuffle : List RemoteImage → List RemoteImage}
    {cands : List RemoteImage}
    (h : e621Finish count theme randomize payload shuffle = .ok cands) :
    cands.length ≤ count := by
  unfold e621Finish at h
  repeat' split at h
  all_goals first
    | (cases h; exact Nat.zero_le _)
    | (cases h; exact List.length_take_le _ _)
    | simp at h

/-- Claim C8 (as stated, refuted): `NekosApiProvider.fetch_candidates`
asked for 1 candidate returns 2 when the upstream payload carries two
items — the parsed list is not truncated to `count`. -/
theorem C8_counterexample :
    (nekosapi_fetch_candidates 1 "safe" "catgirl" (some nekosapiPayloadTwo)).map
      List.length = .ok 2 ∧ ¬ (2 ≤ 1) := ⟨by decide, by decide⟩

/-- Claim C8 (amended): `E621Provider.fetch_candidates` returns at most
`count` candidates for every upstream response; `NekosApiProvider` and
`NekosBestProvider` pass `count` upstream as the requested limit but
return every candidate parsed from the payload — exactly
`parse_*_payload` of the response — which can exceed `count` when the
upstream over-returns. -/
theorem C8_fetch_bounds (env : String → Option String) (count : ℕ)
    (rating theme : String) (randomize : Bool) (p₁ p₂ : Option Json)
    (shuffle : List RemoteImage → List RemoteImage) :
    (∀ cands, e621_fetch_candidates env count rating theme randomize p₁ p₂ shuffle
        = .ok cands → cands.length ≤ count) ∧
    (∀ fields, 0 < count → theme = "catgirl" →
      nekosapi_fetch_candidates count rating theme (some (.obj fields))
        = parse_nekosapi_payload fields theme) ∧
    (∀ fields, 0 < count → theme ∈ nekosBestInfo.supportedThemes →
      rating ∈ nekosBestInfo.supportedRatings →
      nekos_best_fetch_candidates count rating theme (some (.obj fields))
        = parse_nekos_best_payload fields theme) := by
  refine ⟨?_, ?_, ?_⟩
  · intro cands h
    unfold e621_fetch_candidates at h
    repeat' split at h
    all_goals first
      | (cases h; exact Nat.zero_le _)
      | exact e621Finish_length_le h
      | simp at h
  · intro fields hc ht
    subst ht
    rw [nekosapi_fetch_candidates, if_neg (by omega), if_neg (by simp [nekosApiInfo])]
  · intro fields hc ht hr
    rw [nekos_best_fetch_candidates, if_neg (by omega), if_neg (by simp [ht, hr])]

theorem C8_fetch_bounds_witness :
    ∃ cands, e621_fetch_candidates emptyEnv 1 "any" "femboy" false
      (some e621PayloadOne) none id = .ok cands ∧ cands.length ≤ 1 := by
  refine ⟨[⟨"e621", "femboy", "https://static.e621.net/a.png", "safe",
    ["femboy", "e621", "femboy_tag"]⟩], by decide, ?_⟩
  exact (C8_fetch_bounds emptyEnv 1 "any" "femboy" false (some e621PayloadOne) none id).1
    _ (by decide)

/-- Claim C9 (as stated, refuted): `E621Provider.fetch_candidates`, one of
the two providers the claim says require credentials, returns a candidate
with an entirely empty process environment — absence of credentials does
not make it yield zero candidates. -/
theorem C9_counterexample :
    (e621_fetch_candidates emptyEnv 1 "any" "femboy" false (some e621PayloadOne)
      none id).map List.length = .ok 1 ∧ (1 : ℕ) ≠ 0 := ⟨by decide, by decide⟩

/-- Claim C9 (amended): exactly one provider, rule34, requires credentials
(`RULE34_USER_ID` and `RULE34_API_KEY`) from the process environment:
when either is unset or blank it returns zero candidates (with a logged
warning) for every upstream response; e621 reads only the optional
`E621_USER_AGENT`, falling back to a built-in default User-Agent, and its
result does not depend on the environment at all. -/
theorem C9_credentials (env : String → Option String) (count : ℕ)
    (rating theme : String) (randomize : Bool) (p₁ p₂ : Option Json)
    (shuffle : List RemoteImage → List RemoteImage) :
    (pyStrip ((env "RULE34_USER_ID").getD "") = "" ∨
       pyStrip ((env "RULE34_API_KEY").getD "") = "" →
      rule34_fetch_candidates env count rating theme randomize p₁ p₂ shuffle = []) ∧
    (∀ env₂, e621_fetch_candidates env count rating theme randomize p₁ p₂ shuffle =
      e621_fetch_candidates env₂ count rating theme randomize p₁ p₂ shuffle) ∧
    e621Headers emptyEnv = [("User-Agent", DEFAULT_USER_AGENT)] := by
  refine ⟨?_, fun env₂ => rfl, rfl⟩
  intro h
  simp only [rule34_fetch_candidates]
  repeat' split
  all_goals simp_all

theorem C9_credentials_witness :
    rule34_fetch_candidates emptyEnv 1 "any" "femboy" false (some rule34PayloadOne)
      none id = [] :=
  (C9_credentials emptyEnv 1 "any" "femboy" false (some rule34PayloadOne) none id).1
    (by decide)

lemma urlsplitPath_error_msg {url : String} {e : String}
    (h : urlsplitPath url = .error e) : e = "Invalid IPv6 URL" := by
  unfold urlsplitPath at h
  repeat' split at h
  all_goals first
    | (cases h; rfl)
    | simp at h

lemma dot_token_valid (m : String) (hm : isLowerAlnumToken m = true) :
    isDotLowerAlnumToken ("." ++ m) = true := by
  have hd : ("." ++ m).data = '.' :: m.data := rfl
  unfold isDotLowerAlnumToken
  rw [hd]
  exact hm

lemma extensionFromHeader_valid {ct : Option String} {e : String}
    (h : extensionFromHeader ct = some e) : isDotLowerAlnumToken e = true := by
  unfold extensionFromHeader at h
  repeat' split at h
  all_goals try simp at h
  all_goals
    obtain ⟨h1, h2, h3⟩ := h
    exact h3 ▸ dot_token_valid _ h2

/-- Claim C10 (as stated, refuted): `extension_from_content_type` does not
always return — on the URL-fallback path, `urlparse` raises
`ValueError("Invalid IPv6 URL")` for a URL whose authority component has
a mismatched square bracket. -/
theorem C10_counterexample :
    extension_from_content_type none "http://[::1/x.png" =
      .error "Invalid IPv6 URL" := by decide

/-- Claim C10 (amended): for every content-type (including `None`, empty,
parameterized, non-image or malformed values) and every URL, whenever
`extension_from_content_type` returns, the result is a dot followed by
1-10 lowercase alphanumeric characters (with `.img` as the final
fallback); it does not return — propagating `urlparse`'s
`ValueError("Invalid IPv6 URL")` — only for URLs with a mismatched square
bracket in their authority component, and only on the URL-fallback
path. -/
theorem C10_extension_shape (contentType : Option String) (url : String) :
    (∀ s, extension_from_content_type contentType url = .ok s →
      isDotLowerAlnumToken s = true) ∧
    (∀ e, extension_from_content_type contentType url = .error e →
      e = "Invalid IPv6 URL") := by
  constructor
  · intro s hs
    unfold extension_from_content_type at hs
    cases hh : extensionFromHeader contentType with
    | some ext =>
      simp only [hh] at hs
      cases hs
      exact extensionFromHeader_valid hh
    | none =>
      simp only [hh] at hs
      cases hu : urlsplitPath url with
      | error e => simp only [hu] at hs; simp at hs
      | ok path =>
        simp only [hu] at hs
        by_cases hg : isDotLowerAlnumToken (pyLower (posixPathSuffix path)) = true
        · rw [if_pos hg] at hs
          cases hs
          exact hg
        · rw [if_neg hg] at hs
          cases hs
          decide
  · intro e he
    unfold extension_from_content_type at he
    cases hh : extensionFromHeader contentType with
    | some ext => simp only [hh] at he; simp at he
    | none =>
      simp only [hh] at he
      cases hu : urlsplitPath url with
      | error e₂ =>
        simp only [hu] at he
        cases he
        exact urlsplitPath_error_msg hu
      | ok path =>
        simp only [hu] at he
        by_cases hg : isDotLowerAlnumToken (pyLower (posixPathSuffix path)) = true
        · rw [if_pos hg] at he; simp at he
        · rw [if_neg hg] at he; simp at he

theorem C10_extension_shape_witness :
    isDotLowerAlnumToken ".img" = true :=
  (C10_extension_shape (some "text/plain") "https://example.com/download").1 ".img"
    (by decide)

end Catgirl
